import Mathlib

/-!
Verification development for the interactive-particles repository.

The two source files are embedded shallowly over the reals:
`src/HandTracker.js` (hand-signal extraction: cursor, proximity, gesture,
swipe) and `src/ParticleSystem.js` (template generation and the per-frame
particle behavior engine).  `Math.random()` calls are modelled by an
explicit stream `rng : ℕ → ℝ`, one index per call site.
-/

namespace IPart

open Real

/-- A planar landmark point, as delivered by the perception provider
(`landmarks[i].x`, `landmarks[i].y`; the depth field is never read by the
extractor). -/
structure Pt where
  x : ℝ
  y : ℝ

/-- A 3-D vector, used for cursor positions, particle positions, colors and
template coordinates. -/
structure Vec3 where
  x : ℝ
  y : ℝ
  z : ℝ

/-- A well-formed landmark set: exactly 21 planar points. -/
def Landmarks : Type := Fin 21 → Pt

/-- Function `distSq` of `HandTracker.detectGesture`: squared planar distance. -/
def distSq (p q : Pt) : ℝ := (p.x - q.x) ^ 2 + (p.y - q.y) ^ 2

/-- Function `isExtended(tip, pip, _)` of `HandTracker.detectGesture`: the tip is
farther (in squared planar distance) from the wrist than the PIP joint.
The third (MCP) argument of the source function is unused there and is
dropped here. -/
def extended (l : Landmarks) (tip pip : Fin 21) : Prop :=
  distSq (l tip) (l 0) > distSq (l pip) (l 0)

noncomputable instance (l : Landmarks) (tip pip : Fin 21) :
    Decidable (extended l tip pip) :=
  inferInstanceAs (Decidable (_ > _))

/-- Method `HandTracker.detectGesture`: classify a landmark set as one of
"pinch", "open", "fist", "neutral".  `thumbOpen` is computed by the source
but never used in the classification; it is kept here as a dead binding. -/
noncomputable def detectGesture (l : Landmarks) : String :=
  let _thumbOpen : Prop := extended l 4 3
  let openCount : ℕ :=
    (if extended l 8 6 then 1 else 0) + (if extended l 12 10 then 1 else 0) +
    (if extended l 16 14 then 1 else 0) + (if extended l 20 18 then 1 else 0)
  let pinchDist := Real.sqrt (distSq (l 4) (l 8))
  if pinchDist < 0.05 then "pinch"
  else if openCount = 4 then "open"
  else if openCount = 0 then "fist"
  else "neutral"

/-- The per-frame hand signal returned by `HandTracker.getData`. -/
structure HandSignal where
  position : Vec3
  proximity : ℝ
  gesture : String
  swipe : String

/-- Method `HandTracker.getData`, with the instance field `this.lastPalmX`
passed and returned explicitly: from the optional landmark set and the
stored previous palm x, produce the optional hand signal and the new
stored palm x. -/
noncomputable def getData (input : Option Landmarks) (lastPalmX : Option ℝ) :
    Option HandSignal × Option ℝ :=
  match input with
  | none => (none, none)
  | some l =>
    let indexTip := l 8
    let x := (indexTip.x - 0.5) * 2
    let y := (0.5 - indexTip.y) * 2
    let wrist := l 0
    let middleMcp := l 9
    let dx := wrist.x - middleMcp.x
    let dy := wrist.y - middleMcp.y
    let palmSize := Real.sqrt (dx * dx + dy * dy)
    let proximity := min (max ((palmSize - 0.1) * 3.0) 0) 1
    let gesture := detectGesture l
    let palmX := (l 9).x
    let swipe : String :=
      match lastPalmX with
      | none => "none"
      | some lp =>
        let diff := palmX - lp
        if |diff| > 0.03 then (if diff > 0 then "left" else "right")
        else "none"
    (some ⟨⟨x, y, 0⟩, proximity, gesture, swipe⟩, some palmX)

/-! ### Template generation (`ParticleSystem.generateTemplates`) -/

/-- Flatten a list of 3-D points into a flat coordinate buffer, the shape the
source stores in a `Float32Array` of length `count*3` (stride-3 layout). -/
def flat (l : List Vec3) : List ℝ := l.flatMap fun p => [p.x, p.y, p.z]

/-- Squared norm of a vector. -/
def Vec3.normSq (p : Vec3) : ℝ := p.x ^ 2 + p.y ^ 2 + p.z ^ 2

/-- One point of the sphere placement of `generateTemplates`:
`theta = random*2π`, `phi = acos(random*2 − 1)`, converted to Cartesian
coordinates at radius `r`.  `u` and `v` are the two `Math.random()` draws. -/
noncomputable def spherePoint (r u v : ℝ) : Vec3 :=
  let theta := u * (Real.pi * 2)
  let phi := Real.arccos (v * 2 - 1)
  ⟨r * Real.sin phi * Real.cos theta,
   r * Real.sin phi * Real.sin theta,
   r * Real.cos phi⟩

/-- One point of the saturn ring placement of `generateTemplates`:
an x/z-plane ring of radius `3.5 + random*4` with a small y jitter,
then tilted by 0.4 radians in the x/y plane.  `u`, `v`, `w` are the three
`Math.random()` draws (angle, radius, jitter — in source order). -/
noncomputable def ringPoint (u v w : ℝ) : Vec3 :=
  let theta := u * (Real.pi * 2)
  let r := 3.5 + v * 4
  let x := r * Real.cos theta
  let y := (w - 0.5) * 0.2
  let z := r * Real.sin theta
  let tilt : ℝ := 0.4
  ⟨x * Real.cos tilt - y * Real.sin tilt,
   x * Real.sin tilt + y * Real.cos tilt,
   z⟩

/-- The `random` template: `count*3` scalars, each `(random − 0.5) * 12`. -/
noncomputable def randomTemplate (count : ℕ) (rng : ℕ → ℝ) : List ℝ :=
  (List.range (count * 3)).map fun i => (rng i - 0.5) * 12

/-- The points of the `sphere` template: radius 4, two draws per particle. -/
noncomputable def spherePoints (count : ℕ) (rng : ℕ → ℝ) : List Vec3 :=
  (List.range count).map fun i => spherePoint 4 (rng (2 * i)) (rng (2 * i + 1))

/-- The `sphere` template buffer. -/
noncomputable def sphereTemplate (count : ℕ) (rng : ℕ → ℝ) : List ℝ :=
  flat (spherePoints count rng)

/-- The points of the `cube` template: each axis `(random − 0.5) * 5`. -/
noncomputable def cubePoints (count : ℕ) (rng : ℕ → ℝ) : List Vec3 :=
  (List.range count).map fun i =>
    ⟨(rng (3 * i) - 0.5) * 5, (rng (3 * i + 1) - 0.5) * 5,
     (rng (3 * i + 2) - 0.5) * 5⟩

/-- The `cube` template buffer. -/
noncomputable def cubeTemplate (count : ℕ) (rng : ℕ → ℝ) : List ℝ :=
  flat (cubePoints count rng)

/-- Value `sphereCount` of the saturn template: `Math.floor(count * 0.4)`. -/
noncomputable def saturnSphereCount (count : ℕ) : ℕ :=
  Nat.floor ((count : ℝ) * 0.4)

/-- The points of the `saturn` template: the first `floor(count*0.4)`
particles on a radius-2.5 sphere, the rest on the tilted ring.  The `rng`
indices follow the source's sequential `Math.random()` call order. -/
noncomputable def saturnPoints (count : ℕ) (rng : ℕ → ℝ) : List Vec3 :=
  let sc := saturnSphereCount count
  ((List.range sc).map fun i => spherePoint 2.5 (rng (2 * i)) (rng (2 * i + 1)))
  ++ ((List.range (count - sc)).map fun j =>
      ringPoint (rng (2 * sc + 3 * j)) (rng (2 * sc + 3 * j + 1))
        (rng (2 * sc + 3 * j + 2)))

/-- The `saturn` template buffer. -/
noncomputable def saturnTemplate (count : ℕ) (rng : ℕ → ℝ) : List ℝ :=
  flat (saturnPoints count rng)

/-- Mapping `this.templates` after `generateTemplates`: a mapping holding exactly the
four generated names.  Each template gets its own random stream. -/
noncomputable def mkTemplates (count : ℕ) (r1 r2 r3 r4 : ℕ → ℝ) :
    String → Option (List Vec3) := fun name =>
  if name = "random" then
    some ((List.range count).map fun i =>
      ⟨(r1 (3 * i) - 0.5) * 12, (r1 (3 * i + 1) - 0.5) * 12,
       (r1 (3 * i + 2) - 0.5) * 12⟩)
  else if name = "sphere" then some (spherePoints count r2)
  else if name = "cube" then some (cubePoints count r3)
  else if name = "saturn" then some (saturnPoints count r4)
  else none

/-! ### Particle behavior engine (`ParticleSystem`) -/

/-- The mutable state of a `ParticleSystem`: template mapping, current
target name, behavior flags, wave phase, the `uTime`/`uGlow` shader
uniforms, and the per-particle position/color buffers (stride-3 buffers
modelled as lists of `Vec3`). -/
structure PSState where
  templates : String → Option (List Vec3)
  currentTarget : String
  expanded : Bool
  attracted : Bool
  isWaving : Bool
  wavePhase : ℝ
  uTime : ℝ
  glow : ℝ
  positions : List Vec3
  colors : List Vec3
  scales : List ℝ

/-- Method `ParticleSystem.setTarget`: a no-op unless `name` is present in the
template mapping; otherwise select it and clear both flags. -/
def PSState.setTarget (s : PSState) (name : String) : PSState :=
  if (s.templates name).isSome then
    { s with currentTarget := name, expanded := false, attracted := false }
  else s

/-- Method `ParticleSystem.setExpanded`. -/
def PSState.setExpanded (s : PSState) (state : Bool) : PSState :=
  if state then { s with expanded := state, attracted := false }
  else { s with expanded := state }

/-- Method `ParticleSystem.setAttract`. -/
def PSState.setAttract (s : PSState) (state : Bool) : PSState :=
  if state then { s with attracted := state, expanded := false }
  else { s with attracted := state }

/-- Method `ParticleSystem.triggerWave` (the synchronous part: the deferred
`setTimeout` callback is modelled as the separate step `waveEnd`). -/
def PSState.triggerWave (s : PSState) : PSState :=
  { s with isWaving := true, wavePhase := 0 }

/-- The deferred callback scheduled by `triggerWave`: clears `isWaving`. -/
def PSState.waveEnd (s : PSState) : PSState :=
  { s with isWaving := false }

/-- The per-particle target coordinates of `ParticleSystem.update`, steps
expand → wave → attract, in source order.  `ph` is the (already advanced)
wave phase and `ap` the attract target (hand cursor or origin). -/
noncomputable def particleTarget (expanded waving attracted : Bool)
    (ph : ℝ) (ap : Vec3) (t : Vec3) : Vec3 :=
  let t1 : Vec3 := if expanded then ⟨t.x * 2.0, t.y * 2.0, t.z * 2.0⟩ else t
  let t2 : Vec3 :=
    if waving then ⟨t1.x, t1.y + Real.sin (t1.x * 0.5 + ph) * 2.0, t1.z⟩
    else t1
  if attracted then ⟨ap.x + t2.x * 0.1, ap.y + t2.y * 0.1, ap.z + t2.z * 0.1⟩
  else t2

/-- The integration step of `ParticleSystem.update`: move 5% of the way
toward the target, per axis (`ease = 0.05`). -/
def easeStep (t pos : Vec3) : Vec3 :=
  ⟨pos.x + (t.x - pos.x) * 0.05,
   pos.y + (t.y - pos.y) * 0.05,
   pos.z + (t.z - pos.z) * 0.05⟩

/-- The repulsion/color block of `ParticleSystem.update`: only when a
cursor is present and `attracted` is false; within radius², push away and
mark red; outside it, decay the red channel when above 0.5. -/
noncomputable def repelStep (repelPos : Option Vec3) (attracted : Bool)
    (p col : Vec3) : Vec3 × Vec3 :=
  match repelPos with
  | none => (p, col)
  | some rp =>
    if attracted then (p, col)
    else
      let dx := p.x - rp.x
      let dy := p.y - rp.y
      let dz := p.z - rp.z
      let dSq := dx * dx + dy * dy + dz * dz
      if dSq < 4.0 then
        let dist := Real.sqrt dSq
        let force := (2.0 - dist) * 0.15
        (⟨p.x + dx * force, p.y + dy * force, p.z + dz * force⟩,
         ⟨1.0, col.y, col.z⟩)
      else
        (p, if col.x > 0.5 then ⟨col.x - 0.02, col.y, col.z⟩ else col)

/-- The whole per-particle body of the `update` loop: compute the target,
integrate, then apply the repulsion/color block to the updated position. -/
noncomputable def updateParticle (expanded waving attracted : Bool)
    (ph : ℝ) (repelPos : Option Vec3) (ap : Vec3) (t pos col : Vec3) :
    Vec3 × Vec3 :=
  repelStep repelPos attracted
    (easeStep (particleTarget expanded waving attracted ph ap t) pos) col

/-- Method `ParticleSystem.update(time, handData)`: smooth the glow toward the
signal's proximity (0 when absent), advance the wave phase if waving, then
run the per-particle loop against the current template. -/
noncomputable def PSState.update (s : PSState) (time : ℝ)
    (hand : Option HandSignal) : PSState :=
  let targetGlow : ℝ :=
    match hand with
    | some h => h.proximity
    | none => 0
  let glowNew := s.glow + (targetGlow - s.glow) * 0.1
  let repelPos : Option Vec3 := hand.map fun h => h.position
  let attractPos : Vec3 :=
    match hand with
    | some h => h.position
    | none => ⟨0, 0, 0⟩
  let phaseNew := if s.isWaving then s.wavePhase + 0.1 else s.wavePhase
  let tps := (s.templates s.currentTarget).getD []
  let updated := List.zipWith
    (fun t pc => updateParticle s.expanded s.isWaving s.attracted phaseNew
      repelPos attractPos t pc.1 pc.2)
    tps (s.positions.zip s.colors)
  { s with
    uTime := time
    glow := glowNew
    wavePhase := phaseNew
    positions := updated.map Prod.fst
    colors := updated.map Prod.snd }

/-- The state after construction (`constructor` + `initParticles` +
`generateTemplates`): flags false (`attracted` is merely undefined in the
source, which reads as false), phase 0, glow 0, target "random", buffers
filled from the random streams. -/
noncomputable def initState (count : ℕ) (pr cr sr r1 r2 r3 r4 : ℕ → ℝ) :
    PSState where
  templates := mkTemplates count r1 r2 r3 r4
  currentTarget := "random"
  expanded := false
  attracted := false
  isWaving := false
  wavePhase := 0
  uTime := 0
  glow := 0
  positions := (List.range count).map fun i =>
    ⟨(pr (3 * i) - 0.5) * 10, (pr (3 * i + 1) - 0.5) * 10,
     (pr (3 * i + 2) - 0.5) * 10⟩
  colors := (List.range count).map fun i =>
    ⟨0.2 + cr (3 * i) * 0.3, 0.4 + cr (3 * i + 1) * 0.4,
     0.8 + cr (3 * i + 2) * 0.2⟩
  scales := (List.range count).map fun i => sr i

/-- One externally drivable call on the engine (the control surface plus
the wave timer's deferred callback). -/
inductive Op where
  | target (name : String)
  | expand (b : Bool)
  | attract (b : Bool)
  | wave
  | waveEnd
  | upd (time : ℝ) (hand : Option HandSignal)

/-- Apply one call to the engine state. -/
noncomputable def applyOp (s : PSState) : Op → PSState
  | Op.target name => s.setTarget name
  | Op.expand b => s.setExpanded b
  | Op.attract b => s.setAttract b
  | Op.wave => s.triggerWave
  | Op.waveEnd => s.waveEnd
  | Op.upd t h => s.update t h

/-- Apply a sequence of calls, left to right. -/
noncomputable def applyOps (s : PSState) (ops : List Op) : PSState :=
  ops.foldl applyOp s

/-- Run a sequence of `update` calls, left to right. -/
noncomputable def runUpdates (s : PSState)
    (frames : List (ℝ × Option HandSignal)) : PSState :=
  frames.foldl (fun st f => st.update f.1 f.2) s

/-! ### Helper lemmas -/

lemma flat_length (l : List Vec3) : (flat l).length = 3 * l.length := by
  induction l with
  | nil => rfl
  | cons p l ih =>
    have h : flat (p :: l) = p.x :: p.y :: p.z :: flat l := rfl
    rw [h]
    simp only [List.length_cons, ih]
    ring

lemma getD_range_map {α : Type _} (f : ℕ → α) (n i : ℕ) (h : i < n) (d : α) :
    (((List.range n).map f).getD i d) = f i := by
  rw [List.getD_eq_getElem _ _ (by simpa using h)]
  simp

lemma saturnSphereCount_le (count : ℕ) : saturnSphereCount count ≤ count := by
  have h : ((count : ℝ) * 0.4) ≤ (count : ℝ) := by
    nlinarith [Nat.cast_nonneg (α := ℝ) count]
  calc saturnSphereCount count ≤ Nat.floor ((count : ℝ)) := Nat.floor_mono h
    _ = count := Nat.floor_natCast count

lemma spherePoint_normSq (r u v : ℝ) : (spherePoint r u v).normSq = r ^ 2 := by
  have h1 := Real.sin_sq_add_cos_sq (u * (Real.pi * 2))
  have h2 := Real.sin_sq_add_cos_sq (Real.arccos (v * 2 - 1))
  simp only [spherePoint, Vec3.normSq]
  linear_combination (r ^ 2 * Real.sin (Real.arccos (v * 2 - 1)) ^ 2) * h1 +
    r ^ 2 * h2

lemma spherePoint_dist (r u v : ℝ) (hr : 0 ≤ r) :
    Real.sqrt (spherePoint r u v).normSq = r := by
  rw [spherePoint_normSq, Real.sqrt_sq hr]

lemma getD_zipWith {α β γ : Type _} (f : α → β → γ) (l1 : List α)
    (l2 : List β) (i : ℕ) (h1 : i < l1.length) (h2 : i < l2.length)
    (d1 : α) (d2 : β) (d3 : γ) :
    (List.zipWith f l1 l2).getD i d3 = f (l1.getD i d1) (l2.getD i d2) := by
  rw [List.getD_eq_getElem _ _ (by simp [List.length_zipWith]; omega),
    List.getD_eq_getElem _ _ h1, List.getD_eq_getElem _ _ h2]
  exact List.getElem_zipWith

lemma getD_map {α β : Type _} (f : α → β) (l : List α) (i : ℕ)
    (h : i < l.length) (d1 : β) (d2 : α) :
    (l.map f).getD i d1 = f (l.getD i d2) := by
  rw [List.getD_eq_getElem _ _ (by simpa using h), List.getD_eq_getElem _ _ h]
  simp

/-- Per-particle view of `PSState.update`: with `i` in range of all three
buffers, the updated position/color at index `i` is `updateParticle`
applied to the template, position and color at index `i`. -/
lemma update_getD (s : PSState) (time : ℝ) (hand : Option HandSignal) (i : ℕ)
    (h1 : i < ((s.templates s.currentTarget).getD []).length)
    (h2 : i < s.positions.length) (h3 : i < s.colors.length) :
    ((s.update time hand).positions.getD i ⟨0, 0, 0⟩,
     (s.update time hand).colors.getD i ⟨0, 0, 0⟩) =
    updateParticle s.expanded s.isWaving s.attracted
      (if s.isWaving then s.wavePhase + 0.1 else s.wavePhase)
      (hand.map fun h => h.position)
      (match hand with | some h => h.position | none => ⟨0, 0, 0⟩)
      (((s.templates s.currentTarget).getD []).getD i ⟨0, 0, 0⟩)
      (s.positions.getD i ⟨0, 0, 0⟩) (s.colors.getD i ⟨0, 0, 0⟩) := by
  simp only [PSState.update]
  rw [List.getD_eq_getElem _ _ (by simp [List.length_zipWith, List.length_zip]; omega),
    List.getD_eq_getElem _ _ (by simp [List.length_zipWith, List.length_zip]; omega),
    List.getD_eq_getElem _ _ h1, List.getD_eq_getElem _ _ h2,
    List.getD_eq_getElem _ _ h3]
  simp [List.getElem_zipWith, List.getElem_zip]

/-! ### Claim theorems -/

/-- The all-zero random stream, used to instantiate witnesses. -/
def z0 : ℕ → ℝ := fun _ => 0

/-- Claim C9: whenever the extractor is invoked with no hand present, it
sets the swipe history to absent and returns null; the (total) function
raises no exception, so absence is the only failure mode. -/
theorem claim_C9_absent_input (st : Option ℝ) :
    getData none st = (none, none) := rfl

/-- Claim C5: `setTarget` with a name outside the four generated templates
changes nothing (target, `expanded` and `attracted` flags included), and
with a known name it selects that template and clears both flags. -/
theorem claim_C5_setTarget (count : ℕ) (r1 r2 r3 r4 : ℕ → ℝ) (s : PSState)
    (name : String) (hT : s.templates = mkTemplates count r1 r2 r3 r4) :
    (name ∉ (["random", "sphere", "cube", "saturn"] : List String) →
      s.setTarget name = s)
    ∧ (name ∈ (["random", "sphere", "cube", "saturn"] : List String) →
      (s.setTarget name).currentTarget = name
      ∧ (s.setTarget name).expanded = false
      ∧ (s.setTarget name).attracted = false) := by
  constructor
  · intro hn
    simp only [List.mem_cons, List.not_mem_nil, or_false, not_or] at hn
    obtain ⟨n1, n2, n3, n4⟩ := hn
    have h : (s.templates name) = none := by
      rw [hT]
      simp [mkTemplates, n1, n2, n3, n4]
    simp [PSState.setTarget, h]
  · intro hn
    simp only [List.mem_cons, List.not_mem_nil, or_false] at hn
    have h : (s.templates name).isSome = true := by
      rw [hT]
      rcases hn with rfl | rfl | rfl | rfl <;> simp [mkTemplates]
    simp [PSState.setTarget, h]

/-- Witness for C5 at a concrete engine state: an unknown name is a no-op
and a known one selects the template and clears the flags. -/
theorem claim_C5_witness :
    ((initState 0 z0 z0 z0 z0 z0 z0 z0).setTarget "garbage" =
      initState 0 z0 z0 z0 z0 z0 z0 z0)
    ∧ ((initState 0 z0 z0 z0 z0 z0 z0 z0).setTarget "cube").currentTarget =
      "cube" := by
  constructor
  · exact (claim_C5_setTarget 0 z0 z0 z0 z0 _ "garbage" rfl).1 (by decide)
  · exact ((claim_C5_setTarget 0 z0 z0 z0 z0 _ "cube" rfl).2 (by decide)).1

lemma applyOp_flags (s : PSState) (op : Op)
    (h : (s.expanded && s.attracted) = false) :
    ((applyOp s op).expanded && (applyOp s op).attracted) = false := by
  cases op with
  | target name =>
    simp only [applyOp, PSState.setTarget]
    split
    · rfl
    · exact h
  | expand b => cases b <;> simp [applyOp, PSState.setExpanded]
  | attract b => cases b <;> simp [applyOp, PSState.setAttract]
  | wave => exact h
  | waveEnd => exact h
  | upd t hd => exact h

lemma applyOps_flags (ops : List Op) (s : PSState)
    (h : (s.expanded && s.attracted) = false) :
    ((applyOps s ops).expanded && (applyOps s ops).attracted) = false := by
  induction ops generalizing s with
  | nil => exact h
  | cons op ops ih =>
    exact ih (applyOp s op) (applyOp_flags s op h)

/-- Claim C6: `setExpanded(true)` clears `attracted`, `setAttract(true)`
clears `expanded`, and starting from the constructed state no sequence of
control calls (`setTarget`, `setExpanded`, `setAttract`, `triggerWave`,
its deferred callback, `update`) can leave both flags true. -/
theorem claim_C6_flags :
    (∀ s : PSState, (s.setExpanded true).attracted = false)
    ∧ (∀ s : PSState, (s.setAttract true).expanded = false)
    ∧ (∀ (count : ℕ) (pr cr sr r1 r2 r3 r4 : ℕ → ℝ) (ops : List Op),
      ((applyOps (initState count pr cr sr r1 r2 r3 r4) ops).expanded &&
       (applyOps (initState count pr cr sr r1 r2 r3 r4) ops).attracted) =
        false) := by
  refine ⟨fun s => rfl, fun s => rfl, fun count pr cr sr r1 r2 r3 r4 ops => ?_⟩
  exact applyOps_flags ops _ rfl

lemma update_glow (s : PSState) (time : ℝ) (hand : Option HandSignal) :
    (s.update time hand).glow =
      s.glow + ((match hand with | some h => h.proximity | none => 0)
        - s.glow) * 0.1 := rfl

lemma runUpdates_glow_bounds (frames : List (ℝ × Option HandSignal))
    (s : PSState) (h0 : 0 ≤ s.glow) (h1 : s.glow ≤ 1)
    (hp : ∀ f ∈ frames, ∀ hsg, f.2 = some hsg →
      0 ≤ hsg.proximity ∧ hsg.proximity ≤ 1) :
    0 ≤ (runUpdates s frames).glow ∧ (runUpdates s frames).glow ≤ 1 := by
  induction frames generalizing s with
  | nil => exact ⟨h0, h1⟩
  | cons f frames ih =>
    have hstep : 0 ≤ (s.update f.1 f.2).glow ∧ (s.update f.1 f.2).glow ≤ 1 := by
      rw [update_glow]
      rcases hf : f.2 with _ | hsg
      · constructor <;> nlinarith
      · have := hp f (List.mem_cons_self f frames) hsg hf
        constructor <;> nlinarith [this.1, this.2]
    have hrest : ∀ g ∈ frames, ∀ hsg, g.2 = some hsg →
        0 ≤ hsg.proximity ∧ hsg.proximity ≤ 1 :=
      fun g hg => hp g (List.mem_cons_of_mem f hg)
    exact ih (s.update f.1 f.2) hstep.1 hstep.2 hrest

/-- Claim C10: starting from glow 0, over any sequence of update calls
whose hand signals are null or carry a proximity in [0,1], the glow scalar
stays in [0,1] after every call (each call replaces it with the convex
combination `glow + (target - glow) * 0.1`). -/
theorem claim_C10_glow (s : PSState) (h0 : s.glow = 0)
    (frames : List (ℝ × Option HandSignal))
    (hp : ∀ f ∈ frames, ∀ hsg, f.2 = some hsg →
      0 ≤ hsg.proximity ∧ hsg.proximity ≤ 1) :
    (∀ time hand, (s.update time hand).glow =
      s.glow + ((match hand with | some h => h.proximity | none => 0)
        - s.glow) * 0.1)
    ∧ ∀ l1 l2, frames = l1 ++ l2 →
      0 ≤ (runUpdates s l1).glow ∧ (runUpdates s l1).glow ≤ 1 := by
  refine ⟨fun time hand => update_glow s time hand, fun l1 l2 hsplit => ?_⟩
  refine runUpdates_glow_bounds l1 s (le_of_eq h0.symm) (by rw [h0]; norm_num)
    (fun f hf => hp f ?_)
  rw [hsplit]
  exact List.mem_append_left l2 hf

/-- Witness for C10: the constructed engine (glow 0) after one hand-free
update call has glow still inside [0,1]. -/
theorem claim_C10_witness :
    0 ≤ (runUpdates (initState 0 z0 z0 z0 z0 z0 z0 z0) [(0, none)]).glow
    ∧ (runUpdates (initState 0 z0 z0 z0 z0 z0 z0 z0) [(0, none)]).glow ≤ 1 :=
  (claim_C10_glow (initState 0 z0 z0 z0 z0 z0 z0 z0) rfl [(0, none)]
    (by intro f hf hsg hfalse
        simp only [List.mem_singleton] at hf
        rw [hf] at hfalse
        exact absurd hfalse (by simp))).2
    [(0, none)] [] rfl

lemma updateParticle_plain (ph : ℝ) (ap t pos col : Vec3) :
    updateParticle false false false ph none ap t pos col =
      (easeStep t pos, col) := rfl

/-- Claim C7: with `expanded`, `attracted` and `waving` all false and no
cursor, one `update` call moves each particle 5% of the remaining way to
its template coordinate, so each per-axis gap to the target shrinks by the
factor 0.95. -/
theorem claim_C7_ease (s : PSState) (time : ℝ) (i : ℕ)
    (he : s.expanded = false) (ha : s.attracted = false)
    (hw : s.isWaving = false)
    (h1 : i < ((s.templates s.currentTarget).getD []).length)
    (h2 : i < s.positions.length) (h3 : i < s.colors.length) :
    ((s.update time none).positions.getD i ⟨0, 0, 0⟩ =
      easeStep (((s.templates s.currentTarget).getD []).getD i ⟨0, 0, 0⟩)
        (s.positions.getD i ⟨0, 0, 0⟩))
    ∧ ((((s.templates s.currentTarget).getD []).getD i (⟨0, 0, 0⟩ : Vec3)).x -
        (((s.update time none).positions.getD i ⟨0, 0, 0⟩)).x =
        0.95 * ((((s.templates s.currentTarget).getD []).getD i
          (⟨0, 0, 0⟩ : Vec3)).x - (s.positions.getD i ⟨0, 0, 0⟩).x))
    ∧ ((((s.templates s.currentTarget).getD []).getD i (⟨0, 0, 0⟩ : Vec3)).y -
        (((s.update time none).positions.getD i ⟨0, 0, 0⟩)).y =
        0.95 * ((((s.templates s.currentTarget).getD []).getD i
          (⟨0, 0, 0⟩ : Vec3)).y - (s.positions.getD i ⟨0, 0, 0⟩).y))
    ∧ ((((s.templates s.currentTarget).getD []).getD i (⟨0, 0, 0⟩ : Vec3)).z -
        (((s.update time none).positions.getD i ⟨0, 0, 0⟩)).z =
        0.95 * ((((s.templates s.currentTarget).getD []).getD i
          (⟨0, 0, 0⟩ : Vec3)).z - (s.positions.getD i ⟨0, 0, 0⟩).z)) := by
  have key := update_getD s time none i h1 h2 h3
  rw [he, ha, hw] at key
  have hpos : (s.update time none).positions.getD i ⟨0, 0, 0⟩ =
      easeStep (((s.templates s.currentTarget).getD []).getD i ⟨0, 0, 0⟩)
        (s.positions.getD i ⟨0, 0, 0⟩) := by
    have hfst := congrArg Prod.fst key
    simpa [updateParticle_plain] using hfst
  refine ⟨hpos, ?_, ?_, ?_⟩ <;> rw [hpos] <;> simp only [easeStep] <;> ring

/-- Concrete one-particle engine state used to witness C7. -/
noncomputable def c7s : PSState where
  templates := fun n => if n = "random" then some [⟨1, 2, 3⟩] else none
  currentTarget := "random"
  expanded := false
  attracted := false
  isWaving := false
  wavePhase := 0
  uTime := 0
  glow := 0
  positions := [⟨0, 0, 0⟩]
  colors := [⟨0.3, 0.5, 0.9⟩]
  scales := [1]

/-- Witness for C7: on a one-particle state at the origin with template
point (1,2,3), the hand-free update lands exactly at the 5% ease step. -/
theorem claim_C7_witness :
    (c7s.update 0 none).positions.getD 0 ⟨0, 0, 0⟩ =
      easeStep ⟨1, 2, 3⟩ ⟨0, 0, 0⟩ := by
  have h := (claim_C7_ease c7s 0 0 rfl rfl rfl (by simp [c7s])
    (by simp [c7s]) (by simp [c7s])).1
  simpa [c7s] using h

/-- Concrete one-particle engine state with a hot red channel (0.9) used
against claim C1: an update with no cursor present. -/
noncomputable def c1s : PSState where
  templates := fun n => if n = "random" then some [⟨0, 0, 0⟩] else none
  currentTarget := "random"
  expanded := false
  attracted := false
  isWaving := false
  wavePhase := 0
  uTime := 0
  glow := 0
  positions := [⟨0, 0, 0⟩]
  colors := [⟨0.9, 0.4, 0.8⟩]
  scales := [1]

/-- Counterexample to claim C1: a particle with red channel 0.9 > 0.5 goes
through an update call with no cursor position, and its red channel stays
at 0.9 — it is not decremented by 0.02. -/
theorem claim_C1_counterexample :
    (0.5 : ℝ) < 0.9
    ∧ ((c1s.update 0 none).colors.getD 0 ⟨0, 0, 0⟩).x = 0.9
    ∧ (0.9 : ℝ) ≠ 0.9 - 0.02 := by
  refine ⟨by norm_num, ?_, by norm_num⟩
  have key := update_getD c1s 0 none 0 (by simp [c1s]) (by simp [c1s])
    (by simp [c1s])
  have hsnd := congrArg Prod.snd key
  simp only [c1s, updateParticle_plain] at hsnd
  rw [show ((c1s.update 0 none).colors.getD 0 ⟨0, 0, 0⟩) =
      (⟨0.9, 0.4, 0.8⟩ : Vec3) by simpa [c1s, updateParticle_plain] using hsnd]

/-- Claim C1 as amended: the red channel is untouched when no cursor is
present or when `attracted` is set; with a cursor and `attracted` false it
is set to 1.0 when repulsion fires (squared distance < 4.0) and decayed by
0.02 (when above 0.5) only when repulsion does not fire. -/
theorem claim_C1_corrected (e w a : Bool) (ph : ℝ) (ap t pos col : Vec3) :
    ((updateParticle e w a ph none ap t pos col).2 = col)
    ∧ (∀ rp : Vec3, a = true →
        (updateParticle e w a ph (some rp) ap t pos col).2 = col)
    ∧ (∀ rp : Vec3, a = false →
        (((easeStep (particleTarget e w a ph ap t) pos).x - rp.x) *
          ((easeStep (particleTarget e w a ph ap t) pos).x - rp.x) +
         ((easeStep (particleTarget e w a ph ap t) pos).y - rp.y) *
          ((easeStep (particleTarget e w a ph ap t) pos).y - rp.y) +
         ((easeStep (particleTarget e w a ph ap t) pos).z - rp.z) *
          ((easeStep (particleTarget e w a ph ap t) pos).z - rp.z) < 4.0 →
          (updateParticle e w a ph (some rp) ap t pos col).2 =
            ⟨1.0, col.y, col.z⟩)
        ∧ (¬ ((easeStep (particleTarget e w a ph ap t) pos).x - rp.x) *
          ((easeStep (particleTarget e w a ph ap t) pos).x - rp.x) +
         ((easeStep (particleTarget e w a ph ap t) pos).y - rp.y) *
          ((easeStep (particleTarget e w a ph ap t) pos).y - rp.y) +
         ((easeStep (particleTarget e w a ph ap t) pos).z - rp.z) *
          ((easeStep (particleTarget e w a ph ap t) pos).z - rp.z) < 4.0 →
          (updateParticle e w a ph (some rp) ap t pos col).2 =
            if col.x > 0.5 then ⟨col.x - 0.02, col.y, col.z⟩ else col)) := by
  refine ⟨rfl, ?_, ?_⟩
  · intro rp ha
    subst ha
    rfl
  · intro rp ha
    subst ha
    constructor
    · intro hlt
      simp only [updateParticle, repelStep, Bool.false_eq_true, if_false]
      rw [if_pos hlt]
    · intro hge
      simp only [updateParticle, repelStep, Bool.false_eq_true, if_false]
      rw [if_neg hge]

/-- Witness for the amended C1: with a cursor at the origin and the
particle resting at distance 3 (no repulsion), the 0.9 red channel decays
to 0.88. -/
theorem claim_C1_witness :
    (updateParticle false false false 0 (some ⟨0, 0, 0⟩) ⟨0, 0, 0⟩ ⟨3, 0, 0⟩
      ⟨3, 0, 0⟩ ⟨0.9, 0.4, 0.8⟩).2 = ⟨0.9 - 0.02, 0.4, 0.8⟩ := by
  have h := ((claim_C1_corrected false false false 0 ⟨0, 0, 0⟩ ⟨3, 0, 0⟩
    ⟨3, 0, 0⟩ ⟨0.9, 0.4, 0.8⟩).2.2 ⟨0, 0, 0⟩ rfl).2
  simp only [easeStep, particleTarget] at h
  rw [h (by norm_num)]
  norm_num

lemma repelStep_near (rp p col : Vec3) (d : ℝ)
    (hd : (p.x - rp.x) * (p.x - rp.x) + (p.y - rp.y) * (p.y - rp.y) +
      (p.z - rp.z) * (p.z - rp.z) = d ^ 2)
    (h0 : 0 ≤ d) (hlt : d ^ 2 < 4) :
    repelStep (some rp) false p col =
      (⟨p.x + (p.x - rp.x) * ((2.0 - d) * 0.15),
        p.y + (p.y - rp.y) * ((2.0 - d) * 0.15),
        p.z + (p.z - rp.z) * ((2.0 - d) * 0.15)⟩,
       ⟨1.0, col.y, col.z⟩) := by
  simp only [repelStep, Bool.false_eq_true, if_false, hd]
  rw [if_pos (by linarith), Real.sqrt_sq h0]

/-- Concrete one-particle engine state used against claim C2: the particle
rests at (0.5, 0, 0), which is also its template target. -/
noncomputable def c2s : PSState where
  templates := fun n => if n = "random" then some [⟨0.5, 0, 0⟩] else none
  currentTarget := "random"
  expanded := false
  attracted := false
  isWaving := false
  wavePhase := 0
  uTime := 0
  glow := 0
  positions := [⟨0.5, 0, 0⟩]
  colors := [⟨0.3, 0.5, 0.9⟩]
  scales := [1]

/-- The hand signal used against claim C2: cursor at the origin. -/
noncomputable def c2hand : HandSignal where
  position := ⟨0, 0, 0⟩
  proximity := 0
  gesture := "neutral"
  swipe := "none"

/-- Counterexample to claim C2: with the cursor at the origin, a particle
whose post-integration position is (0.5, 0, 0) (squared distance 0.25 <
4.0, distance 0.5) is displaced by 0.1125 along x, not by the claimed
magnitude (2.0 − 0.5) * 0.15 = 0.225: the code scales the unnormalized
separation vector by the force, so the magnitude carries an extra factor
of the distance. -/
theorem claim_C2_counterexample :
    (easeStep (particleTarget false false false 0 c2hand.position
        ⟨0.5, 0, 0⟩) ⟨0.5, 0, 0⟩ = ⟨0.5, 0, 0⟩)
    ∧ ((0.5 : ℝ) - 0) * ((0.5 : ℝ) - 0) + ((0 : ℝ) - 0) * ((0 : ℝ) - 0) +
        ((0 : ℝ) - 0) * ((0 : ℝ) - 0) < 4.0
    ∧ Real.sqrt (((0.5 : ℝ) - 0) * ((0.5 : ℝ) - 0) +
        ((0 : ℝ) - 0) * ((0 : ℝ) - 0) + ((0 : ℝ) - 0) * ((0 : ℝ) - 0)) = 0.5
    ∧ ((c2s.update 0 (some c2hand)).positions.getD 0 ⟨0, 0, 0⟩).x - 0.5 =
        0.1125
    ∧ (0.1125 : ℝ) ≠ (2.0 - 0.5) * 0.15 := by
  have hease : easeStep (particleTarget false false false 0 c2hand.position
      ⟨0.5, 0, 0⟩) ⟨0.5, 0, 0⟩ = ⟨0.5, 0, 0⟩ := by
    simp [easeStep, particleTarget, c2hand]
  refine ⟨hease, by norm_num, ?_, ?_, by norm_num⟩
  · rw [show ((0.5 : ℝ) - 0) * ((0.5 : ℝ) - 0) +
      ((0 : ℝ) - 0) * ((0 : ℝ) - 0) + ((0 : ℝ) - 0) * ((0 : ℝ) - 0) =
      (0.5 : ℝ) ^ 2 by norm_num]
    exact Real.sqrt_sq (by norm_num)
  · have key := update_getD c2s 0 (some c2hand) 0 (by simp [c2s])
      (by simp [c2s]) (by simp [c2s])
    have hfst := congrArg Prod.fst key
    have hrep := repelStep_near c2hand.position
      (easeStep (particleTarget false false false 0 c2hand.position
        ⟨0.5, 0, 0⟩) ⟨0.5, 0, 0⟩) ⟨0.3, 0.5, 0.9⟩ 0.5
      (by rw [hease]; norm_num [c2hand]) (by norm_num) (by norm_num)
    have hx : (c2s.update 0 (some c2hand)).positions.getD 0 ⟨0, 0, 0⟩ =
        (updateParticle c2s.expanded c2s.isWaving c2s.attracted
          (if c2s.isWaving then c2s.wavePhase + 0.1 else c2s.wavePhase)
          ((some c2hand).map fun h => h.position)
          (match some c2hand with | some h => h.position | none => ⟨0, 0, 0⟩)
          (((c2s.templates c2s.currentTarget).getD []).getD 0 ⟨0, 0, 0⟩)
          (c2s.positions.getD 0 ⟨0, 0, 0⟩)
          (c2s.colors.getD 0 ⟨0, 0, 0⟩)).1 :=
      congrArg Prod.fst key
    rw [hx]
    show (repelStep (some c2hand.position) false
      (easeStep (particleTarget false false false 0 c2hand.position
        ⟨0.5, 0, 0⟩) ⟨0.5, 0, 0⟩) ⟨0.3, 0.5, 0.9⟩).1.x - 0.5 = 0.1125
    rw [hrep]
    simp [easeStep, particleTarget, c2hand]
    norm_num

/-- Claim C2 as amended: within the 4.0 squared radius the particle is
displaced by the (unnormalized) separation vector scaled by
`(2.0 − distance) * 0.15` — displacement magnitude `distance * (2.0 −
distance) * 0.15` — and its red channel is set to 1.0; at squared distance
at least 4.0 there is no repulsion displacement. -/
theorem claim_C2_corrected (e w : Bool) (ph : ℝ) (rp ap t pos col : Vec3) :
    ∀ p : Vec3, p = easeStep (particleTarget e w false ph ap t) pos →
    ∀ dSq : ℝ, dSq = (p.x - rp.x) * (p.x - rp.x) +
      (p.y - rp.y) * (p.y - rp.y) + (p.z - rp.z) * (p.z - rp.z) →
    (dSq < 4.0 →
      (updateParticle e w false ph (some rp) ap t pos col).1 =
        ⟨p.x + (p.x - rp.x) * ((2.0 - Real.sqrt dSq) * 0.15),
         p.y + (p.y - rp.y) * ((2.0 - Real.sqrt dSq) * 0.15),
         p.z + (p.z - rp.z) * ((2.0 - Real.sqrt dSq) * 0.15)⟩
      ∧ (updateParticle e w false ph (some rp) ap t pos col).2 =
        ⟨1.0, col.y, col.z⟩)
    ∧ (¬ dSq < 4.0 →
      (updateParticle e w false ph (some rp) ap t pos col).1 = p) := by
  intro p hp dSq hd
  constructor
  · intro hlt
    rw [hd] at hlt
    subst hp
    subst hd
    constructor
    · simp only [updateParticle, repelStep, Bool.false_eq_true, if_false]
      rw [if_pos hlt]
    · simp only [updateParticle, repelStep, Bool.false_eq_true, if_false]
      rw [if_pos hlt]
  · intro hge
    rw [hd] at hge
    subst hp
    subst hd
    simp only [updateParticle, repelStep, Bool.false_eq_true, if_false]
    rw [if_neg hge]

/-- Witness for the amended C2: at distance 0.5 from the cursor the
particle lands at x = 0.6125 (displacement 0.5 · 0.225) and is marked
red. -/
theorem claim_C2_witness :
    (updateParticle false false false 0 (some ⟨0, 0, 0⟩) ⟨0, 0, 0⟩
      ⟨0.5, 0, 0⟩ ⟨0.5, 0, 0⟩ ⟨0.3, 0.5, 0.9⟩).1 = ⟨0.6125, 0, 0⟩
    ∧ (updateParticle false false false 0 (some ⟨0, 0, 0⟩) ⟨0, 0, 0⟩
      ⟨0.5, 0, 0⟩ ⟨0.5, 0, 0⟩ ⟨0.3, 0.5, 0.9⟩).2 = ⟨1.0, 0.5, 0.9⟩ := by
  have h := claim_C2_corrected false false 0 ⟨0, 0, 0⟩ ⟨0, 0, 0⟩ ⟨0.5, 0, 0⟩
    ⟨0.5, 0, 0⟩ ⟨0.3, 0.5, 0.9⟩ ⟨0.5, 0, 0⟩
    (by simp [easeStep, particleTarget]) 0.25 (by norm_num)
  have h2 := h.1 (by norm_num)
  have hs : Real.sqrt (0.25 : ℝ) = 0.5 := by
    rw [show (0.25 : ℝ) = 0.5 ^ 2 by norm_num]
    exact Real.sqrt_sq (by norm_num)
  constructor
  · rw [h2.1, hs]
    simp
    norm_num
  · exact h2.2

/-- Claim C3: the classifier returns "pinch" iff the planar distance from
thumb tip (4) to index tip (8) is below 0.05; otherwise "open" iff all
four non-thumb fingers are extended, "fist" iff none is, else "neutral";
and landmarks 2 and 3 (thumb MCP/IP, the only inputs to the dead thumb
extension computation) never change the result. -/
theorem claim_C3_gesture (l : Landmarks) :
    (detectGesture l = "pinch" ↔ Real.sqrt (distSq (l 4) (l 8)) < 0.05)
    ∧ (¬ Real.sqrt (distSq (l 4) (l 8)) < 0.05 →
        ((detectGesture l = "open" ↔
          (extended l 8 6 ∧ extended l 12 10 ∧ extended l 16 14 ∧
           extended l 20 18))
         ∧ (detectGesture l = "fist" ↔
          (¬ extended l 8 6 ∧ ¬ extended l 12 10 ∧ ¬ extended l 16 14 ∧
           ¬ extended l 20 18))
         ∧ (¬ (extended l 8 6 ∧ extended l 12 10 ∧ extended l 16 14 ∧
               extended l 20 18) →
            ¬ (¬ extended l 8 6 ∧ ¬ extended l 12 10 ∧ ¬ extended l 16 14 ∧
               ¬ extended l 20 18) →
            detectGesture l = "neutral")))
    ∧ (∀ l' : Landmarks, (∀ i : Fin 21, i ≠ 2 → i ≠ 3 → l i = l' i) →
        detectGesture l = detectGesture l') := by
  refine ⟨?_, ?_, ?_⟩
  · by_cases hp : Real.sqrt (distSq (l 4) (l 8)) < 0.05
    · simp [detectGesture, hp]
    · simp only [detectGesture, if_neg hp]
      constructor
      · intro h
        split_ifs at h <;> exact absurd h (by decide)
      · intro h
        exact absurd h hp
  · intro hp
    simp only [detectGesture, if_neg hp]
    by_cases h1 : extended l 8 6 <;> by_cases h2 : extended l 12 10 <;>
      by_cases h3 : extended l 16 14 <;> by_cases h4 : extended l 20 18 <;>
      simp [h1, h2, h3, h4]
  · intro l' hl
    have h0 := hl 0 (by decide) (by decide)
    have h4 := hl 4 (by decide) (by decide)
    have h6 := hl 6 (by decide) (by decide)
    have h8 := hl 8 (by decide) (by decide)
    have h10 := hl 10 (by decide) (by decide)
    have h12 := hl 12 (by decide) (by decide)
    have h14 := hl 14 (by decide) (by decide)
    have h16 := hl 16 (by decide) (by decide)
    have h18 := hl 18 (by decide) (by decide)
    have h20 := hl 20 (by decide) (by decide)
    simp only [detectGesture, extended, distSq, h0, h4, h6, h8, h10, h12,
      h14, h16, h18, h20]

/-- A concrete landmark set for witnessing C3: thumb tip far from index
tip, all four non-thumb fingertips farther from the wrist than their
PIPs. -/
noncomputable def wLm : Landmarks := fun i =>
  if i.val = 4 then ⟨0, 1⟩
  else if i.val = 8 ∨ i.val = 12 ∨ i.val = 16 ∨ i.val = 20 then ⟨0.6, 0⟩
  else if i.val = 6 ∨ i.val = 10 ∨ i.val = 14 ∨ i.val = 18 then ⟨0.2, 0⟩
  else ⟨0, 0⟩

/-- Witness for C3: the concrete landmark set classifies as "open". -/
theorem claim_C3_witness : detectGesture wLm = "open" := by
  have e4 : wLm 4 = ⟨0, 1⟩ := by
    simp [wLm, show ((4 : Fin 21) : ℕ) = 4 from rfl]
  have e0 : wLm 0 = ⟨0, 0⟩ := by
    simp [wLm, show ((0 : Fin 21) : ℕ) = 0 from rfl]
  have e8 : wLm 8 = ⟨0.6, 0⟩ := by
    simp [wLm, show ((8 : Fin 21) : ℕ) = 8 from rfl]
  have e12 : wLm 12 = ⟨0.6, 0⟩ := by
    simp [wLm, show ((12 : Fin 21) : ℕ) = 12 from rfl]
  have e16 : wLm 16 = ⟨0.6, 0⟩ := by
    simp [wLm, show ((16 : Fin 21) : ℕ) = 16 from rfl]
  have e20 : wLm 20 = ⟨0.6, 0⟩ := by
    simp [wLm, show ((20 : Fin 21) : ℕ) = 20 from rfl]
  have e6 : wLm 6 = ⟨0.2, 0⟩ := by
    simp [wLm, show ((6 : Fin 21) : ℕ) = 6 from rfl]
  have e10 : wLm 10 = ⟨0.2, 0⟩ := by
    simp [wLm, show ((10 : Fin 21) : ℕ) = 10 from rfl]
  have e14 : wLm 14 = ⟨0.2, 0⟩ := by
    simp [wLm, show ((14 : Fin 21) : ℕ) = 14 from rfl]
  have e18 : wLm 18 = ⟨0.2, 0⟩ := by
    simp [wLm, show ((18 : Fin 21) : ℕ) = 18 from rfl]
  have hnp : ¬ Real.sqrt (distSq (wLm 4) (wLm 8)) < 0.05 := by
    intro hc
    rw [Real.sqrt_lt' (by norm_num)] at hc
    rw [e4, e8] at hc
    norm_num [distSq] at hc
  have he1 : extended wLm 8 6 := by
    simp only [extended, distSq, e8, e6, e0]
    norm_num
  have he2 : extended wLm 12 10 := by
    simp only [extended, distSq, e12, e10, e0]
    norm_num
  have he3 : extended wLm 16 14 := by
    simp only [extended, distSq, e16, e14, e0]
    norm_num
  have he4 : extended wLm 20 18 := by
    simp only [extended, distSq, e20, e18, e0]
    norm_num
  exact ((claim_C3_gesture wLm).2.1 hnp).1.mpr ⟨he1, he2, he3, he4⟩

/-- Claim C4: with a stored previous palm x and a present hand, the swipe
is "left" when the delta exceeds 0.03 positively, "right" when it exceeds
0.03 negatively, "none" when its magnitude is at most 0.03; the history is
always overwritten with the current landmark-9 x; and the first
present-hand frame after an absence yields "none". -/
theorem claim_C4_swipe (l : Landmarks) (lp : ℝ) :
    (|(l 9).x - lp| > 0.03 → (l 9).x - lp > 0 →
      ((getData (some l) (some lp)).1.map HandSignal.swipe = some "left"))
    ∧ (|(l 9).x - lp| > 0.03 → (l 9).x - lp < 0 →
      ((getData (some l) (some lp)).1.map HandSignal.swipe = some "right"))
    ∧ (|(l 9).x - lp| ≤ 0.03 →
      ((getData (some l) (some lp)).1.map HandSignal.swipe = some "none"))
    ∧ (∀ st : Option ℝ, (getData (some l) st).2 = some ((l 9).x))
    ∧ ((getData (some l) none).1.map HandSignal.swipe = some "none") := by
  refine ⟨?_, ?_, ?_, ?_, ?_⟩
  · intro hgt hpos
    simp [getData, hgt, hpos]
  · intro hgt hneg
    have hnp : ¬ ((l 9).x - lp > 0) := by linarith
    simp [getData, hgt, hnp]
  · intro hle
    have hng : ¬ (|(l 9).x - lp| > 0.03) := not_lt.mpr hle
    simp [getData, hng]
  · intro st
    cases st <;> simp [getData]
  · simp [getData]

/-- A constant landmark set whose palm proxy (landmark 9) sits at
x = 0.56, used to witness C4 against a stored history of 0.50. -/
noncomputable def wLm2 : Landmarks := fun _ => ⟨0.56, 0.3⟩

/-- Witness for C4: moving the palm proxy from 0.50 to 0.56 (delta 0.06 >
0.03) fires a "left" swipe and overwrites the history with 0.56. -/
theorem claim_C4_witness :
    ((getData (some wLm2) (some 0.5)).1.map HandSignal.swipe = some "left")
    ∧ (getData (some wLm2) (some 0.5)).2 = some 0.56 := by
  have h9 : (wLm2 9).x = 0.56 := rfl
  constructor
  · exact (claim_C4_swipe wLm2 0.5).1
      (by rw [h9, abs_of_pos (by norm_num : (0 : ℝ) < 0.56 - 0.5)]; norm_num)
      (by rw [h9]; norm_num)
  · have h := (claim_C4_swipe wLm2 0.5).2.2.2.1 (some 0.5)
    rw [h9] at h
    exact h

/-- Claim C8: each of the four templates is a buffer of exactly
`count * 3` scalars; every sphere-template point lies at distance 4 from
the origin, and each of the first `floor(count * 0.4)` saturn points lies
at distance 2.5. -/
theorem claim_C8_templates (count : ℕ) (rng : ℕ → ℝ) :
    (randomTemplate count rng).length = count * 3
    ∧ (sphereTemplate count rng).length = count * 3
    ∧ (cubeTemplate count rng).length = count * 3
    ∧ (saturnTemplate count rng).length = count * 3
    ∧ (∀ i, i < count →
        Real.sqrt (((spherePoints count rng).getD i ⟨0, 0, 0⟩).normSq) = 4)
    ∧ (∀ i, i < saturnSphereCount count →
        Real.sqrt (((saturnPoints count rng).getD i ⟨0, 0, 0⟩).normSq) =
          2.5) := by
  have hsc := saturnSphereCount_le count
  refine ⟨?_, ?_, ?_, ?_, ?_, ?_⟩
  · simp [randomTemplate]
  · rw [sphereTemplate, flat_length]
    simp [spherePoints]
    ring
  · rw [cubeTemplate, flat_length]
    simp [cubePoints]
    ring
  · rw [saturnTemplate, flat_length]
    simp only [saturnPoints, List.length_append, List.length_map,
      List.length_range]
    omega
  · intro i hi
    simp only [spherePoints]
    rw [getD_range_map _ _ _ hi]
    exact spherePoint_dist _ _ _ (by norm_num)
  · intro i hi
    simp only [saturnPoints]
    rw [List.getD_append _ _ _ _ (by simpa using hi)]
    rw [getD_range_map _ _ _ hi]
    exact spherePoint_dist _ _ _ (by norm_num)

/-- Witness for C8 at `count = 1` with the all-zero stream: the random
buffer has 3 scalars and the single sphere point sits at distance 4. -/
theorem claim_C8_witness :
    (randomTemplate 1 z0).length = 1 * 3
    ∧ Real.sqrt (((spherePoints 1 z0).getD 0 ⟨0, 0, 0⟩).normSq) = 4 :=
  ⟨(claim_C8_templates 1 z0).1,
   (claim_C8_templates 1 z0).2.2.2.2.1 0 (by norm_num)⟩

end IPart
